import Mathlib

/-!
Shallow embedding of the dual-motor power-recliner controller
(src/sketch_aug21a.ino).  The Arduino `loop` body is modelled as a pure
tick function over an explicit controller state; relay outputs written by
`set_motor_state` are part of the state, and the motor command issued on a
tick (the single `set_motor_state` call executed by that tick, if any) is
returned alongside the successor state.
-/

/-- Selection constant: no motor (sketch line 131). -/
def NO_MOTOR : Nat := 0

/-- Left motor selection bit (sketch line 132). -/
def LEFT_MOTOR : Nat := 1

/-- Right motor selection bit (sketch line 133). -/
def RIGHT_MOTOR : Nat := 2

/-- Both motors selection mask (sketch line 134). -/
def BOTH_MOTOR : Nat := 3

/-- Direction constant: motor off (sketch line 136). -/
def RUN_OFF : Nat := 0

/-- Direction constant: motor runs inward (sketch line 137). -/
def RUN_IN : Nat := 1

/-- Direction constant: motor runs outward (sketch line 138). -/
def RUN_OUT : Nat := 2

/-- Boolean snapshot of the four switches produced by `detect_switches`
each tick (active-high logical values, sketch lines 182-187). -/
structure Switches where
  up : Bool
  down : Bool
  left : Bool
  right : Bool
deriving DecidableEq

/-- The four relay output lines driven by `set_motor_state`. -/
structure Pins where
  motorLeftIn : Bool
  motorLeftOut : Bool
  motorRightIn : Bool
  motorRightOut : Bool
deriving DecidableEq

/-- A motor command: the argument pair of one `set_motor_state` call. -/
structure MotorCommand where
  motors : Nat
  dir : Nat
deriving DecidableEq

/-- Controller state: the global variables of the sketch (lines 140-149)
together with the current relay output levels. -/
structure State where
  fault : Bool
  fix_timer : Nat
  fix_direction : Nat
  prev_up : Bool
  prev_down : Bool
  delay_next : Nat
  pins : Pins
deriving DecidableEq

/-- Model of `set_motor_state` (sketch lines 164-180): for each motor, if
it is in the selection mask its In line is driven iff the direction is
`RUN_IN` and its Out line iff the direction is `RUN_OUT`; a motor outside
the mask has both lines driven low. -/
def set_motor_state (motors dir : Nat) : Pins :=
  { motorLeftIn := if motors &&& LEFT_MOTOR ≠ 0 then decide (dir = RUN_IN) else false
    motorLeftOut := if motors &&& LEFT_MOTOR ≠ 0 then decide (dir = RUN_OUT) else false
    motorRightIn := if motors &&& RIGHT_MOTOR ≠ 0 then decide (dir = RUN_IN) else false
    motorRightOut := if motors &&& RIGHT_MOTOR ≠ 0 then decide (dir = RUN_OUT) else false }

/-- One execution of the `loop` body (sketch lines 195-271) on switch
snapshot `i`: returns the successor state and the motor command issued
this tick (`none` when the tick performs no `set_motor_state` call).
The sketch first ORs the two simultaneous-input triggers into `fault` and
then tests `fault`; here the trigger `f` is computed once and `fault` is
written only in the taken branch, which is equivalent since when `f` is
false the old `fault` was already false and the assignment is a no-op. -/
def tick (s : State) (i : Switches) : State × Option MotorCommand :=
  let f := s.fault || (i.left && i.right) || (i.up && i.down)
  if f then
    ({ s with fault := true }, none)
  else if s.delay_next ≠ 0 then
    ({ s with delay_next := s.delay_next - 1,
              pins := set_motor_state BOTH_MOTOR RUN_OFF },
     some ⟨BOTH_MOTOR, RUN_OFF⟩)
  else if s.fix_timer ≠ 0 ∧ s.fix_direction ≠ 0 then
    if i.up = false ∧ i.down = false then
      ({ s with pins := set_motor_state BOTH_MOTOR RUN_OFF },
       some ⟨BOTH_MOTOR, RUN_OFF⟩)
    else if s.fix_timer - 1 = 0 then
      ({ s with fix_timer := 0, fix_direction := NO_MOTOR,
                fault := i.left || i.right,
                pins := set_motor_state BOTH_MOTOR RUN_OFF },
       some ⟨BOTH_MOTOR, RUN_OFF⟩)
    else
      ({ s with fix_timer := s.fix_timer - 1,
                pins := set_motor_state s.fix_direction RUN_IN },
       some ⟨s.fix_direction, RUN_IN⟩)
  else if i.left then
    ({ s with delay_next := 10, fix_timer := 750, fix_direction := LEFT_MOTOR }, none)
  else if i.right then
    ({ s with delay_next := 10, fix_timer := 750, fix_direction := RIGHT_MOTOR }, none)
  else if i.up ≠ s.prev_up ∨ i.down ≠ s.prev_down then
    ({ s with prev_up := i.up, prev_down := i.down, delay_next := 10 }, none)
  else if i.down then
    ({ s with pins := set_motor_state BOTH_MOTOR RUN_IN }, some ⟨BOTH_MOTOR, RUN_IN⟩)
  else if i.up then
    ({ s with pins := set_motor_state BOTH_MOTOR RUN_OUT }, some ⟨BOTH_MOTOR, RUN_OUT⟩)
  else
    (s, none)

/-- State component of one tick. -/
def tickState (s : State) (i : Switches) : State := (tick s i).1

/-- Command component of one tick. -/
def tickCmd (s : State) (i : Switches) : Option MotorCommand := (tick s i).2

/-- Controller state right after `setup` (sketch lines 189-193): the C
globals start zero-initialised except `delay_next = 10`, and `setup`
commands both motors off. -/
def init : State :=
  { fault := false, fix_timer := 0, fix_direction := 0,
    prev_up := false, prev_down := false, delay_next := 10,
    pins := set_motor_state BOTH_MOTOR RUN_OFF }

/-- Run a sequence of ticks from state `s`. -/
def runTicks (s : State) (ins : List Switches) : State :=
  ins.foldl tickState s

/-- Snapshot with no switch active. -/
def swNone : Switches := ⟨false, false, false, false⟩

/-- Snapshot with only the down switch pressed. -/
def swDown : Switches := ⟨false, true, false, false⟩

/-- Snapshot with only the left limit switch active. -/
def swLeft : Switches := ⟨false, false, true, false⟩

/-- Snapshot with both manual switches pressed. -/
def swUpDown : Switches := ⟨true, true, false, false⟩

/-- Snapshot with both limit switches active. -/
def swBothLimits : Switches := ⟨false, false, true, true⟩

/-- The state reached from `init` after ten settle ticks, a left-limit
tick that arms a left correction, and the ten debounce ticks that follow
it: correction pending with the full 750-tick budget and the debounce
elapsed. -/
def pausedCorr : State :=
  { fault := false, fix_timer := 750, fix_direction := 1,
    prev_up := false, prev_down := false, delay_next := 0,
    pins := set_motor_state BOTH_MOTOR RUN_OFF }

/-- Input trace that drives the motors: ten startup settle ticks, a down
press (transition tick), ten debounce ticks with down held, then one
stable down tick on which both motors are commanded In. -/
def c1run : List Switches :=
  List.replicate 10 swNone ++ [swDown] ++ List.replicate 11 swDown

/-- Input trace reaching an armed left correction still inside its
post-arming debounce window: ten settle ticks then one left-limit tick. -/
def c8pre : List Switches := List.replicate 10 swNone ++ [swLeft]

/-- Input trace that just runs off the ten startup settle ticks. -/
def c9pre : List Switches := List.replicate 10 swNone

/-- An idle state whose last stable manual-switch record has down pressed,
so a held down switch is not a transition. -/
def manualDownState : State :=
  { fault := false, fix_timer := 0, fix_direction := 0,
    prev_up := false, prev_down := true, delay_next := 0,
    pins := set_motor_state BOTH_MOTOR RUN_OFF }

/-- Snapshot with down held while the left limit switch is still active. -/
def swDownLeft : Switches := ⟨false, true, true, false⟩

/-- Input trace that arms a left correction and then sits through its ten
debounce ticks with down held: ten settle ticks, one left-limit tick, ten
down ticks. -/
def c3pre : List Switches :=
  List.replicate 10 swNone ++ [swLeft] ++ List.replicate 10 swDown

/-- Input trace for the correction-budget counterexample: a left
correction starts on tick 10 and is followed by 750 further ticks with no
switch pressed, during which the correction pauses without decrementing. -/
def c4run : List Switches :=
  List.replicate 10 swNone ++ [swLeft] ++ List.replicate 750 swNone

/-- First twenty-one ticks of `c4run`: settle, arm left correction,
debounce. -/
def c4pre : List Switches :=
  List.replicate 10 swNone ++ [swLeft] ++ List.replicate 10 swNone

/-- An idle post-settle state with all stable records clear. -/
def idleState : State :=
  { fault := false, fix_timer := 0, fix_direction := 0,
    prev_up := false, prev_down := false, delay_next := 0,
    pins := set_motor_state BOTH_MOTOR RUN_OFF }

/-- An active left correction with two budget ticks left and the debounce
elapsed. -/
def corr2State : State :=
  { fault := false, fix_timer := 2, fix_direction := 1,
    prev_up := false, prev_down := true, delay_next := 0,
    pins := set_motor_state BOTH_MOTOR RUN_OFF }

/-- Well-formedness of the correction fields: an armed correction motor
implies a nonzero correction timer.  This holds of every reachable state. -/
def wfCorr (s : State) : Prop := s.fix_direction ≠ 0 → s.fix_timer ≠ 0

theorem runTicks_nil (s : State) : runTicks s [] = s := rfl

theorem runTicks_cons (s : State) (i : Switches) (ins : List Switches) :
    runTicks s (i :: ins) = runTicks (tickState s i) ins := rfl

theorem runTicks_append (s : State) (a b : List Switches) :
    runTicks s (a ++ b) = runTicks (runTicks s a) b := by
  simp [runTicks, List.foldl_append]

theorem runTicks_replicate_fixed (s : State) (i : Switches)
    (h : tickState s i = s) (n : Nat) :
    runTicks s (List.replicate n i) = s := by
  induction n with
  | zero => rfl
  | succ k ih => rw [List.replicate_succ, runTicks_cons, h]; exact ih

theorem fault_tickState_mono (s : State) (i : Switches) (h : s.fault = true) :
    (tickState s i).fault = true := by
  simp [tickState, tick, h]

theorem tick_fault (s : State) (i : Switches)
    (h : (s.fault || (i.left && i.right) || (i.up && i.down)) = true) :
    tick s i = ({ s with fault := true }, none) := by
  simp [tick, h]

theorem tick_debounce (s : State) (i : Switches)
    (hf : s.fault = false) (hlr : (i.left && i.right) = false)
    (hud : (i.up && i.down) = false) (hd : s.delay_next ≠ 0) :
    tick s i = ({ s with delay_next := s.delay_next - 1,
                          pins := set_motor_state BOTH_MOTOR RUN_OFF },
                some ⟨BOTH_MOTOR, RUN_OFF⟩) := by
  simp [tick, hf, hlr, hud, hd]

theorem tick_pause (s : State) (i : Switches)
    (hf : s.fault = false) (hlr : (i.left && i.right) = false)
    (hd : s.delay_next = 0) (ht : s.fix_timer ≠ 0) (hx : s.fix_direction ≠ 0)
    (hu : i.up = false) (hv : i.down = false) :
    tick s i = ({ s with pins := set_motor_state BOTH_MOTOR RUN_OFF },
                some ⟨BOTH_MOTOR, RUN_OFF⟩) := by
  simp [tick, hf, hlr, hd, ht, hx, hu, hv]

theorem tick_corr_done (s : State) (i : Switches)
    (hf : s.fault = false) (hlr : (i.left && i.right) = false)
    (hud : (i.up && i.down) = false)
    (hd : s.delay_next = 0) (ht : s.fix_timer = 1) (hx : s.fix_direction ≠ 0)
    (hu : i.up = true ∨ i.down = true) :
    tick s i = ({ s with fix_timer := 0, fix_direction := NO_MOTOR,
                          fault := i.left || i.right,
                          pins := set_motor_state BOTH_MOTOR RUN_OFF },
                some ⟨BOTH_MOTOR, RUN_OFF⟩) := by
  rcases hu with hu | hu <;> simp [hu] at hud <;>
    simp [tick, hf, hlr, hd, ht, hx, hu, hud]

theorem tick_corr_step (s : State) (i : Switches)
    (hf : s.fault = false) (hlr : (i.left && i.right) = false)
    (hud : (i.up && i.down) = false)
    (hd : s.delay_next = 0) (ht : s.fix_timer ≠ 0) (ht1 : s.fix_timer ≠ 1)
    (hx : s.fix_direction ≠ 0) (hu : i.up = true ∨ i.down = true) :
    tick s i = ({ s with fix_timer := s.fix_timer - 1,
                          pins := set_motor_state s.fix_direction RUN_IN },
                some ⟨s.fix_direction, RUN_IN⟩) := by
  have ht' : s.fix_timer - 1 ≠ 0 := by omega
  rcases hu with hu | hu <;> simp [hu] at hud <;>
    simp [tick, hf, hlr, hd, ht, ht', hx, hu, hud]

theorem tick_fix_left (s : State) (i : Switches)
    (hf : s.fault = false) (hlr : (i.left && i.right) = false)
    (hud : (i.up && i.down) = false) (hd : s.delay_next = 0)
    (hcor : s.fix_timer = 0 ∨ s.fix_direction = 0) (hl : i.left = true) :
    tick s i = ({ s with delay_next := 10, fix_timer := 750,
                          fix_direction := LEFT_MOTOR }, none) := by
  have hr : i.right = false := by cases hx : i.right <;> simp_all
  rcases hcor with hc | hc <;> simp [tick, hf, hud, hd, hc, hl, hr]

theorem tick_fix_right (s : State) (i : Switches)
    (hf : s.fault = false) (hlr : (i.left && i.right) = false)
    (hud : (i.up && i.down) = false) (hd : s.delay_next = 0)
    (hcor : s.fix_timer = 0 ∨ s.fix_direction = 0)
    (hl : i.left = false) (hr : i.right = true) :
    tick s i = ({ s with delay_next := 10, fix_timer := 750,
                          fix_direction := RIGHT_MOTOR }, none) := by
  rcases hcor with hc | hc <;> simp [tick, hf, hlr, hud, hd, hc, hl, hr]

theorem tick_transition (s : State) (i : Switches)
    (hf : s.fault = false) (hud : (i.up && i.down) = false)
    (hd : s.delay_next = 0)
    (hcor : s.fix_timer = 0 ∨ s.fix_direction = 0)
    (hl : i.left = false) (hr : i.right = false)
    (htr : i.up ≠ s.prev_up ∨ i.down ≠ s.prev_down) :
    tick s i = ({ s with prev_up := i.up, prev_down := i.down,
                          delay_next := 10 }, none) := by
  rcases hcor with hc | hc <;>
    simp [tick, hf, hud, hd, hc, hl, hr, htr]

theorem tick_manual_down (s : State) (i : Switches)
    (hf : s.fault = false) (hud : (i.up && i.down) = false)
    (hd : s.delay_next = 0)
    (hcor : s.fix_timer = 0 ∨ s.fix_direction = 0)
    (hl : i.left = false) (hr : i.right = false)
    (hpu : i.up = s.prev_up) (hpd : i.down = s.prev_down)
    (hdn : i.down = true) :
    tick s i = ({ s with pins := set_motor_state BOTH_MOTOR RUN_IN },
                some ⟨BOTH_MOTOR, RUN_IN⟩) := by
  have hu : i.up = false := by
    cases hup : i.up <;> simp_all
  rcases hcor with hc | hc <;>
    simp [tick, hf, hd, hc, hl, hr, ← hpu, ← hpd, hdn, hu]

theorem tick_manual_up (s : State) (i : Switches)
    (hf : s.fault = false) (hud : (i.up && i.down) = false)
    (hd : s.delay_next = 0)
    (hcor : s.fix_timer = 0 ∨ s.fix_direction = 0)
    (hl : i.left = false) (hr : i.right = false)
    (hpu : i.up = s.prev_up) (hpd : i.down = s.prev_down)
    (hdn : i.down = false) (hu : i.up = true) :
    tick s i = ({ s with pins := set_motor_state BOTH_MOTOR RUN_OUT },
                some ⟨BOTH_MOTOR, RUN_OUT⟩) := by
  rcases hcor with hc | hc <;>
    simp [tick, hf, hd, hc, hl, hr, ← hpu, ← hpd, hdn, hu]

theorem tick_idle (s : State) (i : Switches)
    (hf : s.fault = false) (hd : s.delay_next = 0)
    (hcor : s.fix_timer = 0 ∨ s.fix_direction = 0)
    (hl : i.left = false) (hr : i.right = false)
    (hpu : i.up = s.prev_up) (hpd : i.down = s.prev_down)
    (hdn : i.down = false) (hu : i.up = false) :
    tick s i = (s, none) := by
  rcases hcor with hc | hc <;>
    simp [tick, hf, hd, hc, hl, hr, ← hpu, ← hpd, hdn, hu]

theorem wfCorr_tickState (s : State) (i : Switches) (h : wfCorr s) :
    wfCorr (tickState s i) := by
  unfold wfCorr at h ⊢
  by_cases hft : (s.fault || (i.left && i.right) || (i.up && i.down)) = true
  · simp [tickState, tick_fault s i hft]; exact h
  · have hf : s.fault = false := by cases hsf : s.fault <;> simp_all
    have hlr : (i.left && i.right) = false := by
      cases hli : i.left <;> cases hri : i.right <;> simp_all
    have hud : (i.up && i.down) = false := by
      cases hui : i.up <;> cases hdi : i.down <;> simp_all
    by_cases hd : s.delay_next = 0
    · by_cases hcor : s.fix_timer ≠ 0 ∧ s.fix_direction ≠ 0
      · by_cases hp : i.up = false ∧ i.down = false
        · simp [tickState, tick_pause s i hf hlr hd hcor.1 hcor.2 hp.1 hp.2]
          exact h
        · have hu : i.up = true ∨ i.down = true := by
            cases hui : i.up <;> cases hdi : i.down <;> simp_all
          by_cases ht1 : s.fix_timer = 1
          · simp [tickState, tick_corr_done s i hf hlr hud hd ht1 hcor.2 hu,
              NO_MOTOR]
          · simp [tickState,
              tick_corr_step s i hf hlr hud hd hcor.1 ht1 hcor.2 hu]
            omega
      · have hcor' : s.fix_timer = 0 ∨ s.fix_direction = 0 := by
          by_cases h0 : s.fix_timer = 0
          · exact Or.inl h0
          · exact Or.inr (by by_contra hx; exact hcor ⟨h0, hx⟩)
        by_cases hli : i.left = true
        · simp [tickState, tick_fix_left s i hf hlr hud hd hcor' hli]
        · have hli' : i.left = false := by cases hx : i.left <;> simp_all
          by_cases hri : i.right = true
          · simp [tickState, tick_fix_right s i hf hlr hud hd hcor' hli' hri]
          · have hri' : i.right = false := by cases hx : i.right <;> simp_all
            by_cases htr : i.up ≠ s.prev_up ∨ i.down ≠ s.prev_down
            · simp [tickState,
                tick_transition s i hf hud hd hcor' hli' hri' htr]
              exact h
            · have hpu : i.up = s.prev_up := by
                by_contra hx; exact htr (Or.inl hx)
              have hpd : i.down = s.prev_down := by
                by_contra hx; exact htr (Or.inr hx)
              by_cases hdn : i.down = true
              · simp [tickState,
                  tick_manual_down s i hf hud hd hcor' hli' hri' hpu hpd hdn]
                exact h
              · have hdn' : i.down = false := by cases hx : i.down <;> simp_all
                by_cases hui : i.up = true
                · simp [tickState,
                    tick_manual_up s i hf hud hd hcor' hli' hri' hpu hpd hdn' hui]
                  exact h
                · have hui' : i.up = false := by cases hx : i.up <;> simp_all
                  simp [tickState,
                    tick_idle s i hf hd hcor' hli' hri' hpu hpd hdn' hui']
                  exact h
    · simp [tickState, tick_debounce s i hf hlr hud hd]
      exact h

theorem wfCorr_runTicks (s : State) (ins : List Switches) (h : wfCorr s) :
    wfCorr (runTicks s ins) := by
  induction ins generalizing s with
  | nil => exact h
  | cons i rest ih => exact ih _ (wfCorr_tickState s i h)

theorem wfCorr_init : wfCorr init := by
  intro h
  simp [init] at h

/-- C2: the fault latch is monotonic: once the fault flag is true, it
remains true after any further sequence of ticks, whatever the inputs; no
internal logic ever resets it to false. -/
theorem c2_fault_latch_monotonic (s : State) (ins : List Switches)
    (h : s.fault = true) : (runTicks s ins).fault = true := by
  induction ins generalizing s with
  | nil => exact h
  | cons i rest ih => exact ih _ (fault_tickState_mono s i h)

/-- Witness for C2 at a concrete faulted state and input trace. -/
theorem c2_fault_latch_monotonic_witness :
    (runTicks { init with fault := true } [swNone, swDown]).fault = true :=
  c2_fault_latch_monotonic { init with fault := true } [swNone, swDown] rfl

/-- C6: for every `set_motor_state` call, a single motor's In and Out
lines are never both asserted, and a motor not in the selection mask has
both of its lines driven low in the same call. -/
theorem c6_set_motor_state_safe (motors dir : Nat) :
    (¬((set_motor_state motors dir).motorLeftIn = true ∧
       (set_motor_state motors dir).motorLeftOut = true)) ∧
    (¬((set_motor_state motors dir).motorRightIn = true ∧
       (set_motor_state motors dir).motorRightOut = true)) ∧
    (motors &&& LEFT_MOTOR = 0 →
      (set_motor_state motors dir).motorLeftIn = false ∧
      (set_motor_state motors dir).motorLeftOut = false) ∧
    (motors &&& RIGHT_MOTOR = 0 →
      (set_motor_state motors dir).motorRightIn = false ∧
      (set_motor_state motors dir).motorRightOut = false) := by
  unfold set_motor_state RUN_IN RUN_OUT
  refine ⟨?_, ?_, ?_, ?_⟩ <;> split <;> simp_all

/-- Witness for C6: with only the left motor selected and direction In,
the right motor's lines are both low. -/
theorem c6_set_motor_state_safe_witness :
    (set_motor_state LEFT_MOTOR RUN_IN).motorRightIn = false ∧
    (set_motor_state LEFT_MOTOR RUN_IN).motorRightOut = false :=
  (c6_set_motor_state_safe LEFT_MOTOR RUN_IN).2.2.2 (by decide)

/-- C7 counterexample: on a tick entered with `delay_next = 10 > 0` but
with both manual switches pressed, the fault stage claims the tick first:
no motor command is issued and the settle counter is not decremented,
contradicting the claim that the debounce behaviour holds regardless of
any other input. -/
theorem c7_counterexample :
    init.delay_next ≠ 0 ∧ swUpDown.up = true ∧ swUpDown.down = true ∧
    tickCmd init swUpDown = none ∧
    (tickState init swUpDown).delay_next = init.delay_next := by decide

/-- C7 amended: on every tick entered with `delay_next > 0` on which the
fault latch is not already tripped and the inputs do not trip it this tick
(not both limits active, not both manual switches active), the motor
command is Off for both motors, the settle counter is decremented by
exactly one, and no other stage runs: every other state field is
unchanged. -/
theorem c7_debounce_gate (s : State) (i : Switches)
    (hd : s.delay_next ≠ 0) (hf : s.fault = false)
    (hlr : (i.left && i.right) = false) (hud : (i.up && i.down) = false) :
    tickCmd s i = some ⟨BOTH_MOTOR, RUN_OFF⟩ ∧
    (tickState s i).delay_next + 1 = s.delay_next ∧
    (tickState s i).fault = s.fault ∧
    (tickState s i).fix_timer = s.fix_timer ∧
    (tickState s i).fix_direction = s.fix_direction ∧
    (tickState s i).prev_up = s.prev_up ∧
    (tickState s i).prev_down = s.prev_down ∧
    (tickState s i).pins = set_motor_state BOTH_MOTOR RUN_OFF := by
  rw [tickCmd, tickState, tick_debounce s i hf hlr hud hd]
  simp
  omega

/-- Witness for C7 amended at the startup state with no switch active. -/
theorem c7_debounce_gate_witness :
    tickCmd init swNone = some ⟨BOTH_MOTOR, RUN_OFF⟩ ∧
    (tickState init swNone).delay_next + 1 = init.delay_next ∧
    (tickState init swNone).fault = init.fault ∧
    (tickState init swNone).fix_timer = init.fix_timer ∧
    (tickState init swNone).fix_direction = init.fix_direction ∧
    (tickState init swNone).prev_up = init.prev_up ∧
    (tickState init swNone).prev_down = init.prev_down ∧
    (tickState init swNone).pins = set_motor_state BOTH_MOTOR RUN_OFF :=
  c7_debounce_gate init swNone (by decide) (by decide) (by decide) (by decide)

/-- C1 evaluated at the failing input (code bug): drive both motors In by
holding down, then press up as well so the fault latch trips.  On the
tripping tick and on the following faulted tick the loop body returns
early without any `set_motor_state` call, so no Off command is issued and
the relay outputs remain energised In, contradicting the claim that every
faulted tick commands both motors Off. -/
theorem c1_faulted_tick_issues_no_off_command :
    (runTicks init c1run).fault = false ∧
    (runTicks init c1run).pins.motorLeftIn = true ∧
    (runTicks init c1run).pins.motorRightIn = true ∧
    tickCmd (runTicks init c1run) swUpDown = none ∧
    (tickState (runTicks init c1run) swUpDown).fault = true ∧
    (tickState (runTicks init c1run) swUpDown).pins.motorLeftIn = true ∧
    (tickState (runTicks init c1run) swUpDown).pins.motorRightIn = true ∧
    tickCmd (tickState (runTicks init c1run) swUpDown) swNone = none ∧
    (tickState (tickState (runTicks init c1run) swUpDown) swNone).pins.motorLeftIn
      = true := by decide

/-- C8 counterexample: with a left correction armed (budget 750) and
neither manual switch pressed, an input with both limit switches active
makes the fault stage claim the tick: no Off command is issued, against
the claim that such a tick always commands both motors Off. -/
theorem c8_counterexample :
    (runTicks init c8pre).fix_timer ≠ 0 ∧
    (runTicks init c8pre).fix_direction ≠ 0 ∧
    swBothLimits.up = false ∧ swBothLimits.down = false ∧
    tickCmd (runTicks init c8pre) swBothLimits = none ∧
    (tickState (runTicks init c8pre) swBothLimits).fault = true := by decide

/-- C8 amended: on every tick with a correction active (nonzero timer and
armed motor), neither manual switch pressed, the fault latch not tripped
and the limit switches not both active, both motors are commanded Off and
the correction state is otherwise unchanged: the timer is not decremented,
the active motor is not cleared, and the fault stays untripped, so the
same correction can resume decrementing on a later tick. -/
theorem c8_correction_pause_frame (s : State) (i : Switches)
    (hf : s.fault = false) (ht : s.fix_timer ≠ 0) (hx : s.fix_direction ≠ 0)
    (hu : i.up = false) (hv : i.down = false)
    (hlr : (i.left && i.right) = false) :
    tickCmd s i = some ⟨BOTH_MOTOR, RUN_OFF⟩ ∧
    (tickState s i).fix_timer = s.fix_timer ∧
    (tickState s i).fix_direction = s.fix_direction ∧
    (tickState s i).fault = s.fault ∧
    (tickState s i).pins = set_motor_state BOTH_MOTOR RUN_OFF := by
  have hud : (i.up && i.down) = false := by simp [hu]
  by_cases hd : s.delay_next = 0
  · rw [tickCmd, tickState, tick_pause s i hf hlr hd ht hx hu hv]; simp
  · rw [tickCmd, tickState, tick_debounce s i hf hlr hud hd]; simp

/-- Witness for C8 amended at a paused left correction with no input. -/
theorem c8_correction_pause_frame_witness :
    tickCmd pausedCorr swNone = some ⟨BOTH_MOTOR, RUN_OFF⟩ ∧
    (tickState pausedCorr swNone).fix_timer = pausedCorr.fix_timer ∧
    (tickState pausedCorr swNone).fix_direction = pausedCorr.fix_direction ∧
    (tickState pausedCorr swNone).fault = pausedCorr.fault ∧
    (tickState pausedCorr swNone).pins = set_motor_state BOTH_MOTOR RUN_OFF :=
  c8_correction_pause_frame pausedCorr swNone (by decide) (by decide)
    (by decide) (by decide) (by decide) (by decide)

/-- C9 counterexample: right after the startup settle window, with fault
untripped, debounce inactive and no correction active, the first tick
with down pressed is a manual-switch transition: the transition stage
claims the tick, issues no motor command and arms the debounce, against
the claim that down active implies both motors are commanded In. -/
theorem c9_counterexample :
    (runTicks init c9pre).fault = false ∧
    (runTicks init c9pre).delay_next = 0 ∧
    (runTicks init c9pre).fix_direction = 0 ∧
    swDown.down = true ∧
    tickCmd (runTicks init c9pre) swDown = none ∧
    (tickState (runTicks init c9pre) swDown).delay_next = 10 := by decide

/-- C9 amended: on every tick reached with fault not tripped, debounce
not active, no correction active, no limit switch active, the manual
switches equal to their last stable recorded values, and not both manual
switches pressed: down active commands both motors In; otherwise up
active commands both motors Out; if neither is active, no command is
issued and the relay outputs are left exactly as previously asserted. -/
theorem c9_manual_drive (s : State) (i : Switches)
    (hf : s.fault = false) (hd : s.delay_next = 0) (hx : s.fix_direction = 0)
    (hl : i.left = false) (hr : i.right = false)
    (hpu : i.up = s.prev_up) (hpd : i.down = s.prev_down)
    (hud : (i.up && i.down) = false) :
    (i.down = true →
      tick s i = ({ s with pins := set_motor_state BOTH_MOTOR RUN_IN },
                  some ⟨BOTH_MOTOR, RUN_IN⟩)) ∧
    (i.down = false → i.up = true →
      tick s i = ({ s with pins := set_motor_state BOTH_MOTOR RUN_OUT },
                  some ⟨BOTH_MOTOR, RUN_OUT⟩)) ∧
    (i.down = false → i.up = false → tick s i = (s, none)) := by
  refine ⟨?_, ?_, ?_⟩
  · intro hdn
    exact tick_manual_down s i hf hud hd (Or.inr hx) hl hr hpu hpd hdn
  · intro hdn hup
    exact tick_manual_up s i hf hud hd (Or.inr hx) hl hr hpu hpd hdn hup
  · intro hdn hup
    exact tick_idle s i hf hd (Or.inr hx) hl hr hpu hpd hdn hup

/-- Witness for C9 amended: held down switch in a stable idle state
commands both motors In. -/
theorem c9_manual_drive_witness :
    (swDown.down = true →
      tick manualDownState swDown =
        ({ manualDownState with pins := set_motor_state BOTH_MOTOR RUN_IN },
         some ⟨BOTH_MOTOR, RUN_IN⟩)) ∧
    (swDown.down = false → swDown.up = true →
      tick manualDownState swDown =
        ({ manualDownState with pins := set_motor_state BOTH_MOTOR RUN_OUT },
         some ⟨BOTH_MOTOR, RUN_OUT⟩)) ∧
    (swDown.down = false → swDown.up = false →
      tick manualDownState swDown = (manualDownState, none)) :=
  c9_manual_drive manualDownState swDown (by decide) (by decide) (by decide)
    (by decide) (by decide) (by decide) (by decide) (by decide)

theorem corr_run_elim (ins : List Switches) : ∀ s : State,
    s.fault = false → s.delay_next = 0 → s.fix_direction ≠ 0 →
    s.fix_timer = ins.length → ins ≠ [] →
    (∀ i ∈ ins, (i.up = true ∨ i.down = true) ∧ (i.up && i.down) = false ∧
      (i.left && i.right) = false) →
    (runTicks s ins).fix_timer = 0 ∧ (runTicks s ins).fix_direction = 0 ∧
    (runTicks s ins).pins = set_motor_state BOTH_MOTOR RUN_OFF ∧
    ((∀ i ∈ ins, i.left = false ∧ i.right = false) →
      (runTicks s ins).fault = false) := by
  induction ins with
  | nil => intro s _ _ _ _ hne _; exact absurd rfl hne
  | cons i rest ih =>
    intro s hf hd hx hlen _ hall
    have hi := hall i (by simp)
    cases rest with
    | nil =>
      have ht1 : s.fix_timer = 1 := by simpa using hlen
      have hstep : tickState s i =
          { s with fix_timer := 0, fix_direction := NO_MOTOR,
                   fault := i.left || i.right,
                   pins := set_motor_state BOTH_MOTOR RUN_OFF } := by
        rw [tickState, tick_corr_done s i hf hi.2.2 hi.2.1 hd ht1 hx hi.1]
      rw [runTicks_cons, hstep, runTicks_nil]
      refine ⟨rfl, rfl, rfl, ?_⟩
      intro hLim
      have hl := hLim i (by simp)
      simp [hl.1, hl.2]
    | cons j rest2 =>
      have hlen2 : s.fix_timer = rest2.length + 2 := by simpa using hlen
      have ht0 : s.fix_timer ≠ 0 := by omega
      have ht1 : s.fix_timer ≠ 1 := by omega
      have hstep : tickState s i =
          { s with fix_timer := s.fix_timer - 1,
                   pins := set_motor_state s.fix_direction RUN_IN } := by
        rw [tickState, tick_corr_step s i hf hi.2.2 hi.2.1 hd ht0 ht1 hx hi.1]
      rw [runTicks_cons, hstep]
      have hres := ih { s with fix_timer := s.fix_timer - 1,
                               pins := set_motor_state s.fix_direction RUN_IN }
        hf hd hx (by simp; omega) (by simp)
        (fun k hk => hall k (List.mem_cons_of_mem i hk))
      exact ⟨hres.1, hres.2.1, hres.2.2.1,
        fun hLim => hres.2.2.2 (fun k hk => hLim k (List.mem_cons_of_mem i hk))⟩

/-- C3 counterexample: a left correction is active with its full budget of
750 and the left limit switch has cleared (input has left inactive, down
held), yet the tick does not stop the motor and does not return to Idle:
it commands the left motor In and merely decrements the budget to 749. -/
theorem c3_counterexample :
    (runTicks init c3pre).fix_direction = LEFT_MOTOR ∧
    (runTicks init c3pre).fix_timer = 750 ∧
    (runTicks init c3pre).delay_next = 0 ∧
    (runTicks init c3pre).fault = false ∧
    swDown.left = false ∧ swDown.right = false ∧
    tickCmd (runTicks init c3pre) swDown = some ⟨LEFT_MOTOR, RUN_IN⟩ ∧
    (tickState (runTicks init c3pre) swDown).fix_timer = 749 ∧
    (tickState (runTicks init c3pre) swDown).fix_direction = LEFT_MOTOR := by
  decide

/-- C3 amended: the limit switch clearing does not end a correction early;
instead, when an active correction runs through its remaining budget on
ticks with a manual switch held (never both) and both limit switches
inactive, then at budget exhaustion the motor is stopped and the
controller returns to Idle with no fault tripped. -/
theorem c3_correction_clear_limit_outcome (s : State) (ins : List Switches)
    (hf : s.fault = false) (hd : s.delay_next = 0) (hx : s.fix_direction ≠ 0)
    (hlen : s.fix_timer = ins.length) (hne : ins ≠ [])
    (hall : ∀ i ∈ ins, (i.up = true ∨ i.down = true) ∧
      (i.up && i.down) = false ∧ i.left = false ∧ i.right = false) :
    (runTicks s ins).fix_timer = 0 ∧ (runTicks s ins).fix_direction = 0 ∧
    (runTicks s ins).fault = false ∧
    (runTicks s ins).pins = set_motor_state BOTH_MOTOR RUN_OFF := by
  have hall' : ∀ i ∈ ins, (i.up = true ∨ i.down = true) ∧
      (i.up && i.down) = false ∧ (i.left && i.right) = false :=
    fun i hi => ⟨(hall i hi).1, (hall i hi).2.1, by simp [(hall i hi).2.2.1]⟩
  have h := corr_run_elim ins s hf hd hx hlen hne hall'
  exact ⟨h.1, h.2.1,
    h.2.2.2 (fun i hi => ⟨(hall i hi).2.2.1, (hall i hi).2.2.2⟩), h.2.2.1⟩

/-- Witness for C3 amended: a left correction with two budget ticks left,
down held and limits clear, ends Idle with no fault and motors off. -/
theorem c3_correction_clear_limit_outcome_witness :
    (runTicks corr2State [swDown, swDown]).fix_timer = 0 ∧
    (runTicks corr2State [swDown, swDown]).fix_direction = 0 ∧
    (runTicks corr2State [swDown, swDown]).fault = false ∧
    (runTicks corr2State [swDown, swDown]).pins =
      set_motor_state BOTH_MOTOR RUN_OFF :=
  c3_correction_clear_limit_outcome corr2State [swDown, swDown] (by decide)
    (by decide) (by decide) (by decide) (by decide) (by decide)

/-- C4 counterexample: a left correction starts at tick 10 of the run (the
left-limit tick), yet 750 ticks later the controller has neither returned
to Idle nor tripped any fault: with no manual switch pressed the
correction pauses, its budget still at the full 750, so the claimed
T+750 deadline is exceeded. -/
theorem c4_counterexample :
    (runTicks init c4run).fix_timer = 750 ∧
    (runTicks init c4run).fix_direction ≠ 0 ∧
    (runTicks init c4run).fault = false := by
  have h750 : (750 : Nat) = 10 + 740 := by norm_num
  have h1 : c4run = c4pre ++ List.replicate 740 swNone := by
    unfold c4run c4pre
    rw [h750, List.replicate_add]
    simp only [List.append_assoc]
  have h2 : runTicks init c4pre = pausedCorr := by decide
  have h3 : tickState pausedCorr swNone = pausedCorr := by decide
  rw [h1, runTicks_append, h2, runTicks_replicate_fixed pausedCorr swNone h3]
  decide

/-- C4 amended: the 750-tick budget bounds the correction in decrementing
ticks, not wall ticks: whenever an active correction is run for exactly
its remaining budget of ticks on each of which a manual switch is held
(never both) and the limit switches are not both active, the correction
is over afterwards: it has either returned to Idle or tripped the
correction-timeout fault. -/
theorem c4_correction_budget_bound (s : State) (ins : List Switches)
    (hf : s.fault = false) (hd : s.delay_next = 0) (hx : s.fix_direction ≠ 0)
    (hlen : s.fix_timer = ins.length) (hne : ins ≠ [])
    (hall : ∀ i ∈ ins, (i.up = true ∨ i.down = true) ∧
      (i.up && i.down) = false ∧ (i.left && i.right) = false) :
    (runTicks s ins).fix_timer = 0 ∧ (runTicks s ins).fix_direction = 0 := by
  have h := corr_run_elim ins s hf hd hx hlen hne hall
  exact ⟨h.1, h.2.1⟩

/-- Witness for C4 amended: a left correction with two budget ticks left,
down held while the left limit stays active, is over after two ticks (in
this case by tripping the timeout fault). -/
theorem c4_correction_budget_bound_witness :
    (runTicks corr2State [swDownLeft, swDownLeft]).fix_timer = 0 ∧
    (runTicks corr2State [swDownLeft, swDownLeft]).fix_direction = 0 :=
  c4_correction_budget_bound corr2State [swDownLeft, swDownLeft] (by decide)
    (by decide) (by decide) (by decide) (by decide) (by decide)

theorem corr_cmd_not_out (s : State) (i : Switches) (c : MotorCommand)
    (hwf : wfCorr s) (hx : s.fix_direction ≠ 0)
    (hc : tickCmd s i = some c) :
    (c.dir = RUN_OFF ∨ (c.motors = s.fix_direction ∧ c.dir = RUN_IN)) ∧
    c.dir ≠ RUN_OUT := by
  have ht : s.fix_timer ≠ 0 := hwf hx
  by_cases hft : (s.fault || (i.left && i.right) || (i.up && i.down)) = true
  · rw [tickCmd, tick_fault s i hft] at hc
    exact absurd hc (by simp)
  · have hf : s.fault = false := by cases h1 : s.fault <;> simp_all
    have hlr : (i.left && i.right) = false := by
      cases h1 : i.left <;> cases h2 : i.right <;> simp_all
    have hud : (i.up && i.down) = false := by
      cases h1 : i.up <;> cases h2 : i.down <;> simp_all
    by_cases hd : s.delay_next = 0
    · by_cases hp : i.up = false ∧ i.down = false
      · rw [tickCmd, tick_pause s i hf hlr hd ht hx hp.1 hp.2] at hc
        simp at hc
        simp [← hc, RUN_OFF, RUN_OUT]
      · have hu : i.up = true ∨ i.down = true := by
          cases h1 : i.up <;> cases h2 : i.down <;> simp_all
        by_cases ht1 : s.fix_timer = 1
        · rw [tickCmd, tick_corr_done s i hf hlr hud hd ht1 hx hu] at hc
          simp at hc
          simp [← hc, RUN_OFF, RUN_OUT]
        · rw [tickCmd, tick_corr_step s i hf hlr hud hd ht ht1 hx hu] at hc
          simp at hc
          simp [← hc, RUN_IN, RUN_OUT]
    · rw [tickCmd, tick_debounce s i hf hlr hud hd] at hc
      simp at hc
      simp [← hc, RUN_OFF, RUN_OUT]

/-- C5: on every tick of a run from startup on which a correction is
active (armed motor nonzero), any motor command issued that tick is
either the stop command (direction Off) or drives exactly the active
motor with direction In; in particular its direction is never Out. -/
theorem c5_correction_never_out (ins : List Switches) (i : Switches)
    (c : MotorCommand) (hx : (runTicks init ins).fix_direction ≠ 0)
    (hc : tickCmd (runTicks init ins) i = some c) :
    (c.dir = RUN_OFF ∨
      (c.motors = (runTicks init ins).fix_direction ∧ c.dir = RUN_IN)) ∧
    c.dir ≠ RUN_OUT :=
  corr_cmd_not_out (runTicks init ins) i c
    (wfCorr_runTicks init ins wfCorr_init) hx hc

/-- Witness for C5: the debounce tick right after a left correction is
armed issues an Off command, whose direction is not Out. -/
theorem c5_correction_never_out_witness :
    (MotorCommand.dir ⟨BOTH_MOTOR, RUN_OFF⟩ = RUN_OFF ∨
      (MotorCommand.motors ⟨BOTH_MOTOR, RUN_OFF⟩ =
        (runTicks init c8pre).fix_direction ∧
       MotorCommand.dir ⟨BOTH_MOTOR, RUN_OFF⟩ = RUN_IN)) ∧
    MotorCommand.dir ⟨BOTH_MOTOR, RUN_OFF⟩ ≠ RUN_OUT :=
  c5_correction_never_out c8pre swNone ⟨BOTH_MOTOR, RUN_OFF⟩ (by decide)
    (by decide)

/-- C10 counterexample: a manual-switch transition tick issues no command
and arms the 10-tick debounce; but if both manual switches are pressed on
the following tick the fault stage claims it, so the outputs are not
forced Off on the following tick as the claim asserts. -/
theorem c10_counterexample :
    tickCmd (runTicks init c9pre) swDown = none ∧
    (tickState (runTicks init c9pre) swDown).delay_next = 10 ∧
    tickCmd (tickState (runTicks init c9pre) swDown) swUpDown = none ∧
    (tickState (tickState (runTicks init c9pre) swDown) swUpDown).pins =
      (runTicks init c9pre).pins ∧
    (tickState (tickState (runTicks init c9pre) swDown) swUpDown).delay_next
      = 10 := by decide

/-- C10 amended: on the tick that initiates a correction (a limit switch
observed while idle, outside fault and debounce, limits not both active)
and on the tick a manual-switch transition is first detected, no motor
command is issued and the relay outputs are left untouched, with the
10-tick debounce armed; on the following tick, provided that tick's
inputs do not trip the fault latch, the debounce window begins and both
motors are forced Off. -/
theorem c10_event_tick_frame (s : State) (i j : Switches)
    (hf : s.fault = false) (hd : s.delay_next = 0)
    (ht : s.fix_timer = 0) (hxd : s.fix_direction = 0)
    (hlr : (i.left && i.right) = false) (hud : (i.up && i.down) = false)
    (htrig : i.left = true ∨ i.right = true ∨
      i.up ≠ s.prev_up ∨ i.down ≠ s.prev_down)
    (hlr2 : (j.left && j.right) = false) (hud2 : (j.up && j.down) = false) :
    tickCmd s i = none ∧
    (tickState s i).pins = s.pins ∧
    (tickState s i).delay_next = 10 ∧
    tickCmd (tickState s i) j = some ⟨BOTH_MOTOR, RUN_OFF⟩ ∧
    (tickState (tickState s i) j).pins = set_motor_state BOTH_MOTOR RUN_OFF := by
  have hcor : s.fix_timer = 0 ∨ s.fix_direction = 0 := Or.inl ht
  have hstep : (tickState s i).fault = false ∧ (tickState s i).pins = s.pins ∧
      (tickState s i).delay_next = 10 ∧ tickCmd s i = none := by
    by_cases hl : i.left = true
    · rw [tickState, tickCmd, tick_fix_left s i hf hlr hud hd hcor hl]
      exact ⟨hf, rfl, rfl, rfl⟩
    · have hl' : i.left = false := by cases h1 : i.left <;> simp_all
      by_cases hr : i.right = true
      · rw [tickState, tickCmd, tick_fix_right s i hf hlr hud hd hcor hl' hr]
        exact ⟨hf, rfl, rfl, rfl⟩
      · have hr' : i.right = false := by cases h1 : i.right <;> simp_all
        have htr : i.up ≠ s.prev_up ∨ i.down ≠ s.prev_down := by
          rcases htrig with h | h | h | h
          · exact absurd h hl
          · exact absurd h hr
          · exact Or.inl h
          · exact Or.inr h
        rw [tickState, tickCmd,
            tick_transition s i hf hud hd hcor hl' hr' htr]
        exact ⟨hf, rfl, rfl, rfl⟩
  obtain ⟨h2f, h2p, h2d, h2c⟩ := hstep
  have hd2 : (tickState s i).delay_next ≠ 0 := by omega
  have hnext := tick_debounce (tickState s i) j h2f hlr2 hud2 hd2
  refine ⟨h2c, h2p, h2d, ?_, ?_⟩
  · rw [tickCmd, hnext]
  · rw [tickState, hnext]

/-- Witness for C10 amended: from an idle post-settle state, a left-limit
tick issues no command and the next quiet tick forces both motors Off. -/
theorem c10_event_tick_frame_witness :
    tickCmd idleState swLeft = none ∧
    (tickState idleState swLeft).pins = idleState.pins ∧
    (tickState idleState swLeft).delay_next = 10 ∧
    tickCmd (tickState idleState swLeft) swNone = some ⟨BOTH_MOTOR, RUN_OFF⟩ ∧
    (tickState (tickState idleState swLeft) swNone).pins =
      set_motor_state BOTH_MOTOR RUN_OFF :=
  c10_event_tick_frame idleState swLeft swNone (by decide) (by decide)
    (by decide) (by decide) (by decide) (by decide) (by decide) (by decide)
    (by decide)
